import Mathlib

/-!
Verification of the nginx event/offload core: the readiness helpers of
src/event/ngx_event.h and the thread-pool module (intake/completion queues,
worker cycle, reactor-side drain, configuration glue).

The C code is shallowly embedded: each helper becomes a pure Lean function
of the global capability mask `ngx_event_flags`, the event state and the
`flags` argument, returning the list of reactor calls (`add`/`del`) it
performs, in order.  The thread-pool functions become explicit state
transformers on a pool record whose queues are lists (first-to-tail order),
with the `last_p` tail link made explicit where a claim depends on it.
-/

namespace NginxSpec

/-! ## Capability flags and helper-argument constants (ngx_event.h) -/

def NGX_USE_LEVEL_EVENT : Nat := 0x00000001
def NGX_USE_ONESHOT_EVENT : Nat := 0x00000002
def NGX_USE_CLEAR_EVENT : Nat := 0x00000004

def NGX_CLOSE_EVENT : Nat := 1
def NGX_DISABLE_EVENT : Nat := 2

def NGX_OK : Int := 0
def NGX_ERROR : Int := -1

/-! ## Event record

Only the bits the embedded functions read or write are carried:
`active`, `ready` (readiness helpers) and `complete` (thread-pool
completion drain).  The remaining flag bits, the rbtree linkage and the
backend-specific fields of `struct ngx_event_s` are never consulted by the
functions under verification. -/

structure NgxEvent where
  active : Bool
  ready : Bool
  complete : Bool
deriving DecidableEq, Repr

/-- Which direction constant (`NGX_READ_EVENT` / `NGX_WRITE_EVENT`) a
reactor call passes. -/
inductive NgxDir where
  | read
  | write
deriving DecidableEq, Repr

/-- The filter-mode argument the helpers pass to `ngx_add_event`:
`NGX_LEVEL_EVENT`, or `NGX_CLEAR_EVENT` possibly OR-ed with extra flags
(`ngx_handle_write_event` passes `NGX_CLEAR_EVENT|flags`). -/
inductive AddMode where
  | level
  | clear (extra : Nat)
deriving DecidableEq, Repr

/-- One invocation of the bound reactor's `add` or `del` operation, with
the arguments the helper passes. -/
inductive ReactorCall where
  | add (dir : NgxDir) (mode : AddMode)
  | del (dir : NgxDir) (flags : Nat)
deriving DecidableEq, Repr

def ReactorCall.isAdd : ReactorCall → Bool
  | .add _ _ => true
  | .del _ _ => false

def ReactorCall.isDel : ReactorCall → Bool
  | .add _ _ => false
  | .del _ _ => true

/-! ## Readiness helpers (ngx_event.h, lines 464-602)

Each helper is embedded as the list of reactor calls it performs for a
given capability mask, event state and `flags` argument.  The backend is
modelled as succeeding (an `NGX_ERROR` return from `add`/`del` only
truncates the call sequence after the failing call, with no state
consulted by the claims changing), so every helper returns `NGX_OK` and
only the call list matters. -/

/-- ngx_event.h:464-505.  CLEAR: add when `!active && !ready`.  LEVEL:
add when `!active && !ready`; del with the caller's `flags` when
`active && (ready || flags & NGX_CLOSE_EVENT)`.  Otherwise no-op. -/
def ngx_handle_read_event (ngx_event_flags : Nat) (rev : NgxEvent)
    (flags : Nat) : List ReactorCall :=
  if ngx_event_flags &&& NGX_USE_CLEAR_EVENT ≠ 0 then
    if !rev.active && !rev.ready then
      [.add .read (.clear 0)]
    else []
  else if ngx_event_flags &&& NGX_USE_LEVEL_EVENT ≠ 0 then
    if !rev.active && !rev.ready then
      [.add .read .level]
    else if rev.active && (rev.ready || flags &&& NGX_CLOSE_EVENT != 0) then
      [.del .read flags]
    else []
  else []

/-- ngx_event.h:508-531.  LEVEL only: add when `!active && !ready`; del
with flags `0` when `active && ready`. -/
def ngx_handle_level_read_event (ngx_event_flags : Nat) (rev : NgxEvent) :
    List ReactorCall :=
  if ngx_event_flags &&& NGX_USE_LEVEL_EVENT ≠ 0 then
    if !rev.active && !rev.ready then
      [.add .read .level]
    else if rev.active && rev.ready then
      [.del .read 0]
    else []
  else []

/-- ngx_event.h:534-576.  CLEAR: add with `NGX_CLEAR_EVENT|flags` when
`!active && !ready`.  LEVEL: add when `!active && !ready`; del with flags
`0` when `active && ready` — the LEVEL del branch of the write helper
tests neither `NGX_CLOSE_EVENT` nor passes `flags` on, unlike the read
helper. -/
def ngx_handle_write_event (ngx_event_flags : Nat) (wev : NgxEvent)
    (flags : Nat) : List ReactorCall :=
  if ngx_event_flags &&& NGX_USE_CLEAR_EVENT ≠ 0 then
    if !wev.active && !wev.ready then
      [.add .write (.clear flags)]
    else []
  else if ngx_event_flags &&& NGX_USE_LEVEL_EVENT ≠ 0 then
    if !wev.active && !wev.ready then
      [.add .write .level]
    else if wev.active && wev.ready then
      [.del .write 0]
    else []
  else []

/-- ngx_event.h:579-602.  LEVEL only, write direction: add when
`!active && !ready`; del with flags `0` when `active && ready`. -/
def ngx_handle_level_write_event (ngx_event_flags : Nat) (wev : NgxEvent) :
    List ReactorCall :=
  if ngx_event_flags &&& NGX_USE_LEVEL_EVENT ≠ 0 then
    if !wev.active && !wev.ready then
      [.add .write .level]
    else if wev.active && wev.ready then
      [.del .write 0]
    else []
  else []

/-- Modelled from the spec: the effect of the reactor backend's `add` and
`del` on the event's `active` bit.  The backend implementations (epoll,
kqueue, select, …) are not part of this repository slice; spec §3
invariant 1 ("`active=1` iff the reactor holds it") and §4.2 fix that a
successful `add` sets `active` and a successful `del` clears it. -/
def applyCalls (ev : NgxEvent) (cs : List ReactorCall) : NgxEvent :=
  cs.foldl
    (fun e c =>
      match c with
      | .add _ _ => { e with active := true }
      | .del _ _ => { e with active := false })
    ev

/-- Scenario B of spec §8: LEVEL-only capability; start at
`active=false, ready=false`; call `ngx_handle_read_event` with flags 0;
the backend add makes the event active; mark `ready=true`, call again;
mark `ready=false` (backend del cleared `active`), call again.  The value
is the concatenated call trace. -/
def scenarioB : List ReactorCall :=
  let m := NGX_USE_LEVEL_EVENT
  let e0 : NgxEvent := ⟨false, false, false⟩
  let c1 := ngx_handle_read_event m e0 0
  let e1 := { applyCalls e0 c1 with ready := true }
  let c2 := ngx_handle_read_event m e1 0
  let e2 := { applyCalls e1 c2 with ready := false }
  let c3 := ngx_handle_read_event m e2 0
  c1 ++ c2 ++ c3

/-- Scenario C of spec §8: CLEAR capability; `n` consecutive
`ngx_handle_read_event` calls with flags 0, `ready` held false, the
backend updating `active` after each call.  The value is the concatenated
call trace. -/
def scenarioC : Nat → NgxEvent → List ReactorCall
  | 0, _ => []
  | n + 1, e =>
      let c := ngx_handle_read_event NGX_USE_CLEAR_EVENT e 0
      c ++ scenarioC n { applyCalls e c with ready := false }

/-! ## Thread-pool data model (src/core/ngx_thread_pool.c)

A task carries the fields the claims read: its `id` and its completion
`event` (an `NgxEvent`).  `ctx` and the worker handler are opaque to the
claims; `next` is implicit in the list representation of a queue.  A pool
carries the semaphore count, the monotonic `task_id` counter, the intake
queue contents (first-to-tail order) and the `max_queue` cap. -/

structure NgxTask where
  id : Nat
  event : NgxEvent
deriving DecidableEq, Repr

structure ThreadPool where
  sem : Nat
  task_id : Nat
  inq : List NgxTask
  max_queue : Nat
deriving DecidableEq, Repr

/-- One atomic write to a queue's cells, as the enqueue procedures perform
them: a plain store to `first`, a plain store to `last_p`, a successful
compare-and-set of `last_p`, or a store through the old tail link (the
`next` field of the previous tail task). -/
inductive QWrite where
  | storeFirst
  | storeLastP
  | casLastP
  | storeNext
deriving DecidableEq, Repr

/-- Intake enqueue (ngx_thread_pool_task_post, part_000:222-238), run
without interference so the CAS on `last_p` succeeds and `last_p = &first`
exactly when the queue is empty.  Empty queue (`lp == &in.first`): the
first-task branch stores `first = task` then `last_p = &task->next`, both
plain stores.  Otherwise: CAS `last_p` from the old tail link to
`&task->next`, then store the task through the old tail link.  Returns the
new queue contents and the write trace. -/
def ngx_in_enqueue (q : List NgxTask) (t : NgxTask) :
    List NgxTask × List QWrite :=
  if q.isEmpty then
    (q ++ [t], [.storeFirst, .storeLastP])
  else
    (q ++ [t], [.casLastP, .storeNext])

/-- Completion enqueue (ngx_thread_pool_cycle, part_000:336-341), run
without interference: CAS-loop on `out.last_p` (first attempt succeeds),
then store the task through the old tail link `lp` — which is `&out.first`
when the queue was empty, the previous tail's `next` field otherwise.
There is no first-task branch.  Returns the new queue contents and the
write trace. -/
def ngx_out_enqueue (q : List NgxTask) (t : NgxTask) :
    List NgxTask × List QWrite :=
  (q ++ [t], [.casLastP, if q.isEmpty then .storeFirst else .storeNext])

/-- Outcome of `ngx_thread_pool_task_post`, distinguished by the log line
the C code emits with its `NGX_ERROR` return: `errActive` is the
"task already active" ALERT (part_000:200-204), `errOverflow` the
"queue overflow" ERR (part_000:210-215). -/
inductive PostResult where
  | ok
  | errActive
  | errOverflow
deriving DecidableEq, Repr

/-- ngx_thread_pool_task_post (part_000:194-249), with the semaphore
operations (`ngx_sem_getvalue` reads `sem`, `ngx_sem_post` increments it)
succeeding.  Returns the result, the new pool state and the task as the
caller's pointer now sees it. -/
def ngx_thread_pool_task_post (tp : ThreadPool) (task : NgxTask) :
    PostResult × ThreadPool × NgxTask :=
  if task.event.active then
    (.errActive, tp, task)
  else
    let count := tp.sem
    if tp.max_queue ≤ count then
      (.errOverflow, tp, task)
    else
      let task := { task with
                    event := { task.event with active := true },
                    id := tp.task_id }
      let tp := { tp with
                  task_id := tp.task_id + 1,
                  inq := (ngx_in_enqueue tp.inq task).1,
                  sem := tp.sem + 1 }
      (.ok, tp, task)

/-- Where a queue's `last_p` tail link points: at the head cell `&first`,
or at the `next` field of the task with the given id. -/
inductive LastP where
  | headPtr
  | tailNextOf (id : Nat)
deriving DecidableEq, Repr

/-- The `last_p` value the queue invariant (spec §3) prescribes for given
queue contents: `&first` when empty, else the tail task's `next` field. -/
def lastPOf (q : List NgxTask) : LastP :=
  match q.getLast? with
  | none => .headPtr
  | some t => .tailNextOf t.id

/-- Reactor-side completion drain (ngx_thread_pool_handler,
part_000:366-398), run without concurrent appenders.  Pops `out.first`;
when the queue becomes empty it checks `last_p` against `&task->next` and
CASes it back to `&out.first` — if `last_p` does not match (a racing
appender), the task is pushed back and the drain returns.  For each task
it keeps, it sets `event.complete = 1` and `event.active = 0` and then
invokes `event->handler(event)`.  Returns the handled tasks (with their
updated events) and the invocation log: for each handler call, the task
id and the event passed to it. -/
def ngx_thread_pool_handler (q : List NgxTask) (lastP : LastP) :
    List NgxTask × List (Nat × NgxEvent) :=
  match q with
  | [] => ([], [])
  | t :: rest =>
      if rest.isEmpty ∧ lastP ≠ .tailNextOf t.id then
        ([], [])
      else
        let t := { t with
                   event := { t.event with complete := true,
                                           active := false } }
        let (handled, log) := ngx_thread_pool_handler rest lastP
        (t :: handled, (t.id, t.event) :: log)

/-- The event update the drain applies to each task it handles. -/
def completeTask (t : NgxTask) : NgxTask :=
  { t with event := { t.event with complete := true, active := false } }

/-! ## Configuration glue (part_000:402-520)

The directive handler and `init_conf` are embedded over a pool
configuration record.  A directive parameter token is abstracted to its
parsed form: the string utilities `ngx_strncmp`/`ngx_atoi` are external to
this repository slice, so `threads=N` / `max_queue=M` become constructors
carrying `ngx_atoi`'s result (`none` = `NGX_ERROR`, i.e. a non-numeric
value); any other token is `other` — the parameter loop of
`ngx_thread_pool` silently skips tokens matching neither prefix. -/

structure ConfPool where
  name : String
  threads : Nat
  max_queue : Nat
deriving DecidableEq, Repr

inductive ConfArg where
  | threads (v : Option Nat)
  | maxQueue (v : Option Nat)
  | other
deriving DecidableEq, Repr

inductive ConfErr where
  | duplicatePool
  | invalidThreads
  | invalidMaxQueue
  | missingThreads
  | unknownPool
deriving DecidableEq, Repr

def hasThreadsArg (args : List ConfArg) : Bool :=
  args.any fun a => match a with | .threads _ => true | _ => false

def hasMaxQueueArg (args : List ConfArg) : Bool :=
  args.any fun a => match a with | .maxQueue _ => true | _ => false

/-- The parameter loop of ngx_thread_pool (part_000:483-510): `threads=N`
is invalid when `ngx_atoi` fails or N = 0; `max_queue=M` is invalid only
when `ngx_atoi` fails; unmatched tokens are skipped. -/
def ngx_thread_pool_args (tp : ConfPool) :
    List ConfArg → Except ConfErr ConfPool
  | [] => .ok tp
  | .threads v :: rest =>
      match v with
      | none => .error .invalidThreads
      | some 0 => .error .invalidThreads
      | some n => ngx_thread_pool_args { tp with threads := n } rest
  | .maxQueue v :: rest =>
      match v with
      | none => .error .invalidMaxQueue
      | some m => ngx_thread_pool_args { tp with max_queue := m } rest
  | .other :: rest => ngx_thread_pool_args tp rest

/-- Directive handler ngx_thread_pool (part_000:460-520).  `existing` is
the pool `ngx_thread_pool_add` finds for NAME (`none`: a fresh
zero-initialized pool is created).  A pool with `threads ≠ 0` is a
duplicate declaration; otherwise `max_queue` is set to its default 65536,
the parameter tokens are processed, and a pool left with `threads = 0` is
rejected with "must have \"threads\" parameter". -/
def ngx_thread_pool_directive (name : String) (existing : Option ConfPool)
    (args : List ConfArg) : Except ConfErr ConfPool :=
  let tp := existing.getD ⟨name, 0, 0⟩
  if tp.threads ≠ 0 then
    .error .duplicatePool
  else
    match ngx_thread_pool_args { tp with max_queue := 65536 } args with
    | .error e => .error e
    | .ok tp => if tp.threads = 0 then .error .missingThreads else .ok tp

/-- The fix-up ngx_thread_pool_init_conf applies to one pool it accepts:
a pool with `threads ≠ 0` is untouched; the pool named "default" with
`threads = 0` gets `threads = 32`, `max_queue = 65536`. -/
def defaultFix (p : ConfPool) : ConfPool :=
  if p.threads ≠ 0 then p else { p with threads := 32, max_queue := 65536 }

/-- ngx_thread_pool_init_conf (part_000:423-457): walk the declared
pools; a pool with `threads ≠ 0` is kept; a pool with `threads = 0` named
"default" is auto-provided with `threads = 32`, `max_queue = 65536`; any
other pool with `threads = 0` aborts with "unknown thread pool". -/
def ngx_thread_pool_init_conf :
    List ConfPool → Except ConfErr (List ConfPool)
  | [] => .ok []
  | p :: rest =>
      if p.threads ≠ 0 then
        (p :: ·) <$> ngx_thread_pool_init_conf rest
      else if p.name = "default" then
        ({ p with threads := 32, max_queue := 65536 } :: ·) <$>
          ngx_thread_pool_init_conf rest
      else
        .error .unknownPool

/-! ## Theorems -/

/-- C1.  Counterexample: under a LEVEL-capability reactor, calling
`ngx_handle_write_event` with `active=true`, `ready=false` and
`flags=NGX_CLOSE_EVENT` performs no reactor call at all — in particular no
`del(WRITE, flags)` — so the write helper is not symmetric to the read
helper: its LEVEL del branch tests only `active && ready` and ignores
`NGX_CLOSE_EVENT`. -/
theorem c1_counterexample :
    ngx_handle_write_event NGX_USE_LEVEL_EVENT ⟨true, false, false⟩
        NGX_CLOSE_EVENT = []
    ∧ ¬ (ReactorCall.del .write NGX_CLOSE_EVENT ∈
          ngx_handle_write_event NGX_USE_LEVEL_EVENT ⟨true, false, false⟩
            NGX_CLOSE_EVENT) := by
  decide

/-- C1 (amended).  Under a LEVEL-capability reactor (LEVEL bit set, CLEAR
bit clear), for every event with `active=true`, `ngx_handle_write_event`
calls `del(WRITE, 0)` exactly when `ready` is true; the `flags` argument —
`NGX_CLOSE_EVENT` included — neither triggers the del nor is passed to it. -/
theorem c1_write_level_del (m : Nat) (wev : NgxEvent) (fl : Nat)
    (hclear : m &&& NGX_USE_CLEAR_EVENT = 0)
    (hlevel : m &&& NGX_USE_LEVEL_EVENT ≠ 0)
    (hact : wev.active = true) :
    ngx_handle_write_event m wev fl
      = if wev.ready then [ReactorCall.del .write 0] else [] := by
  unfold ngx_handle_write_event
  simp [hclear, hlevel, hact]

/-- C1 witness: at capability mask `NGX_USE_LEVEL_EVENT`, an active ready
event and `flags = NGX_CLOSE_EVENT`, the write helper performs exactly
`del(WRITE, 0)`. -/
theorem c1_write_level_del_witness :
    ngx_handle_write_event NGX_USE_LEVEL_EVENT ⟨true, true, false⟩
        NGX_CLOSE_EVENT = [ReactorCall.del .write 0] := by
  have h := c1_write_level_del NGX_USE_LEVEL_EVENT ⟨true, true, false⟩
    NGX_CLOSE_EVENT (by decide) (by decide) rfl
  simpa using h

/-- C2.  For every capability mask, event state and flags argument, every
reactor call any of the four readiness helpers performs respects the
registration discipline: an `add` only on an event with `active=false`, a
`del` only on an event with `active=true`. -/
theorem c2_add_del_discipline (m : Nat) (ev : NgxEvent) (fl : Nat)
    (c : ReactorCall)
    (h : c ∈ ngx_handle_read_event m ev fl
         ∨ c ∈ ngx_handle_write_event m ev fl
         ∨ c ∈ ngx_handle_level_read_event m ev
         ∨ c ∈ ngx_handle_level_write_event m ev) :
    (c.isAdd = true → ev.active = false)
    ∧ (c.isDel = true → ev.active = true) := by
  rcases h with h | h | h | h
  · unfold ngx_handle_read_event at h
    split_ifs at h with h1 h2 h3 h4 h5 <;> simp_all [ReactorCall.isAdd, ReactorCall.isDel]
  · unfold ngx_handle_write_event at h
    split_ifs at h with h1 h2 h3 h4 h5 <;> simp_all [ReactorCall.isAdd, ReactorCall.isDel]
  · unfold ngx_handle_level_read_event at h
    split_ifs at h with h1 h2 h3 <;> simp_all [ReactorCall.isAdd, ReactorCall.isDel]
  · unfold ngx_handle_level_write_event at h
    split_ifs at h with h1 h2 h3 <;> simp_all [ReactorCall.isAdd, ReactorCall.isDel]

/-- C2 witness: the `add(READ, LEVEL)` call the read helper performs under
a LEVEL-only mask on an inactive, non-ready event is on an event with
`active=false`. -/
theorem c2_add_del_discipline_witness :
    (⟨false, false, false⟩ : NgxEvent).active = false :=
  (c2_add_del_discipline 1 ⟨false, false, false⟩ 0
    (.add .read .level) (.inl (by decide))).1 rfl

/-- C6.  Scenario B: LEVEL-only capability, starting from
`active=false, ready=false`, the three-call sequence (call; set
`ready=true`, call; set `ready=false`, call) performs exactly the calls
add, del, add — two adds and one del in that order. -/
theorem c6_scenarioB :
    scenarioB = [.add .read .level, .del .read 0, .add .read .level] := by
  decide

/-- C7.  Scenario C: CLEAR capability, ten consecutive
`ngx_handle_read_event` calls with `ready=false` throughout and `active`
set by the backend after the first call, perform exactly one add and zero
dels. -/
theorem c7_scenarioC :
    scenarioC 10 ⟨false, false, false⟩ = [.add .read (.clear 0)] := by
  decide

/-- C3.  Posting a non-active task with the semaphore count at
`max_queue - 1` succeeds; with the count at or above `max_queue` it
returns the queue-overflow error and leaves the pool (intake queue,
task-id counter, semaphore) and the task (in particular `event.active`,
still false) unchanged. -/
theorem c3_post_boundary (tp : ThreadPool) (t : NgxTask)
    (hact : t.event.active = false) :
    (1 ≤ tp.max_queue → tp.sem = tp.max_queue - 1 →
        (ngx_thread_pool_task_post tp t).1 = .ok)
    ∧ (tp.max_queue ≤ tp.sem →
        ngx_thread_pool_task_post tp t = (.errOverflow, tp, t)) := by
  unfold ngx_thread_pool_task_post
  constructor
  · intro h1 h2
    have hlt : ¬ tp.max_queue ≤ tp.sem := by omega
    simp [hact, hlt]
  · intro h
    simp [hact, h]

/-- C3 witness: with `max_queue = 4`, posting a fresh task at semaphore
count 3 succeeds and at count 4 fails with overflow, pool and task
untouched. -/
theorem c3_post_boundary_witness :
    (ngx_thread_pool_task_post ⟨3, 0, [], 4⟩ ⟨0, ⟨false, false, false⟩⟩).1
        = .ok
    ∧ ngx_thread_pool_task_post ⟨4, 0, [], 4⟩ ⟨0, ⟨false, false, false⟩⟩
        = (.errOverflow, ⟨4, 0, [], 4⟩, ⟨0, ⟨false, false, false⟩⟩) :=
  ⟨(c3_post_boundary ⟨3, 0, [], 4⟩ ⟨0, ⟨false, false, false⟩⟩ rfl).1
      (by decide) (by decide),
   (c3_post_boundary ⟨4, 0, [], 4⟩ ⟨0, ⟨false, false, false⟩⟩ rfl).2
      (by decide)⟩

/-- C10.  Posting a task whose `event.active` bit is already set returns
the "task already active" error immediately — before the overflow check,
so for every semaphore count, including counts at or above `max_queue` —
and leaves the pool (intake queue, semaphore, task-id counter) and the
task unchanged. -/
theorem c10_post_active (tp : ThreadPool) (t : NgxTask)
    (h : t.event.active = true) :
    ngx_thread_pool_task_post tp t = (.errActive, tp, t) := by
  unfold ngx_thread_pool_task_post
  simp [h]

/-- C10 witness: an already-active task is rejected with `errActive` even
at a semaphore count far above `max_queue`, everything unchanged. -/
theorem c10_post_active_witness :
    ngx_thread_pool_task_post ⟨9, 5, [], 4⟩ ⟨7, ⟨true, false, false⟩⟩
      = (.errActive, ⟨9, 5, [], 4⟩, ⟨7, ⟨true, false, false⟩⟩) :=
  c10_post_active ⟨9, 5, [], 4⟩ ⟨7, ⟨true, false, false⟩⟩ rfl

/-- C4.  Draining a completion queue satisfying the `last_p` invariant,
the reactor-side handler handles every dequeued task: it updates each
task's event to `complete=true, active=false`, and the handler-invocation
log contains exactly one entry per task, in queue order, each invoked with
the already-updated event (`complete=true`, `active=false`). -/
theorem c4_handler_drain (q : List NgxTask) :
    ngx_thread_pool_handler q (lastPOf q)
      = (q.map completeTask, q.map fun t => (t.id, (completeTask t).event)) := by
  induction q with
  | nil => rfl
  | cons t rest ih =>
      match rest with
      | [] =>
          simp [ngx_thread_pool_handler, lastPOf, completeTask]
      | b :: l =>
          have hlp : lastPOf (t :: b :: l) = lastPOf (b :: l) := by
            simp [lastPOf]
          have hne : ¬ ((b :: l).isEmpty = true ∧
              lastPOf (t :: b :: l) ≠ LastP.tailNextOf t.id) := by
            simp
          rw [ngx_thread_pool_handler, if_neg hne, hlp, ih]
          simp [completeTask]

/-- C5.  Counterexample: on an empty queue the intake enqueue takes the
first-task branch (plain store of `first`, then plain store of `last_p`)
while the completion enqueue has no such branch (successful CAS of
`last_p`, then store through the old tail link, here `&out.first`) — the
two procedures do not perform the same sequence of queue-state
transitions. -/
theorem c5_counterexample :
    (ngx_in_enqueue [] ⟨0, ⟨false, false, false⟩⟩).2
        = [QWrite.storeFirst, QWrite.storeLastP]
    ∧ (ngx_out_enqueue [] ⟨0, ⟨false, false, false⟩⟩).2
        = [QWrite.casLastP, QWrite.storeFirst]
    ∧ (ngx_in_enqueue [] ⟨0, ⟨false, false, false⟩⟩).2
        ≠ (ngx_out_enqueue [] ⟨0, ⟨false, false, false⟩⟩).2 := by
  decide

/-- C5 (amended).  For every queue state and every task, the intake
enqueue and the worker's completion enqueue produce the same resulting
queue contents; and on every non-empty queue they also perform the same
write sequence (CAS of `last_p`, then store through the old tail link).
Only the empty-queue case differs: the intake enqueue takes the
first-task/racing-dequeue plain-store branch, the completion enqueue
CAS-loops unconditionally. -/
theorem c5_enqueue_equivalence :
    (∀ (q : List NgxTask) (t : NgxTask),
        (ngx_in_enqueue q t).1 = (ngx_out_enqueue q t).1)
    ∧ (∀ (x : NgxTask) (xs : List NgxTask) (t : NgxTask),
        (ngx_in_enqueue (x :: xs) t).2 = (ngx_out_enqueue (x :: xs) t).2) := by
  constructor
  · intro q t
    unfold ngx_in_enqueue ngx_out_enqueue
    split <;> rfl
  · intro x xs t
    simp [ngx_in_enqueue, ngx_out_enqueue]

/-- When no `max_queue=` token is present, the parameter loop leaves
`max_queue` as it found it. -/
lemma args_no_maxQueue (args : List ConfArg) (tp tp' : ConfPool)
    (hno : hasMaxQueueArg args = false)
    (h : ngx_thread_pool_args tp args = .ok tp') :
    tp'.max_queue = tp.max_queue := by
  induction args generalizing tp with
  | nil =>
      unfold ngx_thread_pool_args at h
      cases h
      rfl
  | cons a rest ih =>
      cases a with
      | threads v =>
          have hno' : hasMaxQueueArg rest = false := by
            simpa [hasMaxQueueArg] using hno
          cases v with
          | none => simp [ngx_thread_pool_args] at h
          | some n =>
              cases n with
              | zero => simp [ngx_thread_pool_args] at h
              | succ k =>
                  simp only [ngx_thread_pool_args] at h
                  have := ih { tp with threads := k + 1 } hno' h
                  simpa using this
      | maxQueue v =>
          simp [hasMaxQueueArg] at hno
      | other =>
          simp only [ngx_thread_pool_args] at h
          have hno' : hasMaxQueueArg rest = false := by
            simpa [hasMaxQueueArg] using hno
          exact ih _ hno' h

/-- When no `threads=` token is present, the parameter loop leaves
`threads` as it found it. -/
lemma args_no_threads (args : List ConfArg) (tp tp' : ConfPool)
    (hno : hasThreadsArg args = false)
    (h : ngx_thread_pool_args tp args = .ok tp') :
    tp'.threads = tp.threads := by
  induction args generalizing tp with
  | nil =>
      unfold ngx_thread_pool_args at h
      cases h
      rfl
  | cons a rest ih =>
      cases a with
      | threads v =>
          simp [hasThreadsArg] at hno
      | maxQueue v =>
          have hno' : hasThreadsArg rest = false := by
            simpa [hasThreadsArg] using hno
          cases v with
          | none => simp [ngx_thread_pool_args] at h
          | some m =>
              simp only [ngx_thread_pool_args] at h
              have := ih { tp with max_queue := m } hno' h
              simpa using this
      | other =>
          simp only [ngx_thread_pool_args] at h
          have hno' : hasThreadsArg rest = false := by
            simpa [hasThreadsArg] using hno
          exact ih _ hno' h

/-- C8 counterexample: the directive handler run for NAME `default` with a
parameter list lacking `threads=` (here only `max_queue=100`) returns the
fatal "must have \"threads\" parameter" error — the `default` name is not
exempt at the directive; its exemption lives in
`ngx_thread_pool_init_conf`. -/
theorem c8_counterexample :
    ngx_thread_pool_directive "default" none [ConfArg.maxQueue (some 100)]
      = .error .missingThreads := by
  rfl

/-- C8 (amended).  For every NAME (including `default`), every
pre-existing pool and every parameter list: when no `max_queue=` token is
present, a successful run of the directive leaves `max_queue` at its
default 65536; and when no `threads=` token is present, the directive
never succeeds — it returns a fatal configuration error. -/
theorem c8_directive (name : String) (existing : Option ConfPool)
    (args : List ConfArg) :
    (hasMaxQueueArg args = false →
      ∀ tp', ngx_thread_pool_directive name existing args = .ok tp' →
        tp'.max_queue = 65536)
    ∧ (hasThreadsArg args = false →
      ∀ tp', ngx_thread_pool_directive name existing args ≠ .ok tp') := by
  constructor
  · intro hno tp' h
    simp only [ngx_thread_pool_directive] at h
    split at h
    · exact Except.noConfusion h
    · split at h
      · exact Except.noConfusion h
      · next tp'' heq =>
          split at h
          · exact Except.noConfusion h
          · have hmq := args_no_maxQueue args _ tp'' hno heq
            cases h
            simpa using hmq
  · intro hno tp' h
    simp only [ngx_thread_pool_directive] at h
    split at h
    · exact Except.noConfusion h
    · next hdup =>
        split at h
        · exact Except.noConfusion h
        · next tp'' heq =>
            split at h
            · exact Except.noConfusion h
            · next hth =>
                have h0 := args_no_threads args _ tp'' hno heq
                simp only [not_not] at hdup
                simp [hdup] at h0
                exact absurd h0 hth

/-- C8 witness: `thread_pool foo threads=4` yields `max_queue = 65536`,
and a fresh `thread_pool x` with an empty parameter list cannot succeed. -/
theorem c8_directive_witness :
    (⟨"foo", 4, 65536⟩ : ConfPool).max_queue = 65536
    ∧ ngx_thread_pool_directive "x" none []
        ≠ .ok (⟨"x", 0, 65536⟩ : ConfPool) :=
  ⟨(c8_directive "foo" none [ConfArg.threads (some 4)]).1 rfl
      ⟨"foo", 4, 65536⟩ rfl,
   (c8_directive "x" none []).2 rfl ⟨"x", 0, 65536⟩⟩

/-- C9.  At configuration finalization: when every pool still at
`threads = 0` is named "default", `ngx_thread_pool_init_conf` succeeds and
returns the pool list with each such pool auto-provided with
`threads = 32`, `max_queue = 65536` (others untouched); and whenever some
pool at `threads = 0` has any other name, it fails with the fatal
"unknown thread pool" error. -/
theorem c9_init_conf (pools : List ConfPool) :
    ((∀ p ∈ pools, p.threads = 0 → p.name = "default") →
        ngx_thread_pool_init_conf pools = .ok (pools.map defaultFix))
    ∧ (∀ p ∈ pools, p.threads = 0 → p.name ≠ "default" →
        ngx_thread_pool_init_conf pools = .error .unknownPool) := by
  induction pools with
  | nil =>
      constructor
      · intro _; rfl
      · intro p hp; cases hp
  | cons q rest ih =>
      constructor
      · intro hall
        have hrest := ih.1 fun p hp => hall p (List.mem_cons_of_mem q hp)
        by_cases hq : q.threads = 0
        · have hname : q.name = "default" := hall q (List.mem_cons_self q rest) hq
          simp [ngx_thread_pool_init_conf, hq, hname, hrest, defaultFix]
        · simp [ngx_thread_pool_init_conf, hq, hrest, defaultFix]
      · intro p hp hth hname
        rcases List.mem_cons.mp hp with rfl | hp'
        · simp [ngx_thread_pool_init_conf, hth, hname]
        · have hrest := ih.2 p hp' hth hname
          unfold ngx_thread_pool_init_conf
          by_cases hq : q.threads = 0
          · by_cases hqname : q.name = "default"
            · simp [hq, hqname, hrest]
            · simp [hq, hqname]
          · simp [hq, hrest]

/-- C9 witness: a sole referenced-but-undeclared pool `default` is
auto-provided with 32 threads and queue cap 65536, while a
referenced-but-undeclared pool `foo` is a fatal configuration error. -/
theorem c9_init_conf_witness :
    ngx_thread_pool_init_conf [⟨"default", 0, 0⟩]
        = .ok [⟨"default", 32, 65536⟩]
    ∧ ngx_thread_pool_init_conf [⟨"foo", 0, 0⟩]
        = .error .unknownPool := by
  constructor
  · have h := (c9_init_conf [⟨"default", 0, 0⟩]).1 (by decide)
    simpa [defaultFix] using h
  · exact (c9_init_conf [⟨"foo", 0, 0⟩]).2 ⟨"foo", 0, 0⟩
      (List.mem_singleton.mpr rfl) rfl (by decide)

end NginxSpec
